import Mathlib

/-!
Verification development for the Food-App-Dashboard category screens.

The embedding below translates the category data model and the pure parts of
the UI logic from the TypeScript sources:

* src/services/api.ts            — Category record, ApiService.makeRequest
* src/components/CategoriesPage.tsx — filteredCategories, getSubCategories,
  handleSubmit payload construction, handleDeleteCategory, loadCategories,
  toggleCategoryExpansion
* src/components/CategoryDetailPage.tsx — the sub-category lookup of
  fetchCategoryDetails
* the unnamed duplicate categories page — its simpler filteredCategories and
  handleSubmit

Identifiers arrive from the upstream API with inconsistent typing (numbers or
strings), which the detail page code handles explicitly via toString
comparisons; identifiers are therefore modelled as a sum of the two runtime
representations.
-/

namespace FoodApp

/-- Runtime category identifier: the upstream API delivers ids either as a
JavaScript number or as a string. -/
inductive JsId where
  | num : Nat → JsId
  | str : String → JsId
deriving DecidableEq, Repr

/-- Model of JavaScript toString on an identifier value. -/
def JsId.render : JsId → String
  | .num n => toString n
  | .str s => s

/-- Model of JavaScript strict equality (triple equals) on identifier values:
two numbers compare numerically, two strings compare as strings, and a number
never strictly equals a string. -/
def jsEq : JsId → JsId → Bool
  | .num a, .num b => a == b
  | .str a, .str b => a == b
  | _, _ => false

/-- Tolerant identifier equality, following the spec wording: identifiers are
compared tolerant of type (numeric vs. string), i.e. after normalizing both
sides to their string representation. -/
def tolerantEq (a b : JsId) : Bool := a.render == b.render

/-- Category record (interface Category in src/services/api.ts). String fields
that the component code reads through optional chaining are modelled as
Option String; parentCategoryIds is likewise Option because the components
guard it (cat.parentCategoryIds?.includes, category.parentCategoryIds || []). -/
structure Category where
  id : JsId
  categoryName : String
  isSubCategory : Bool
  longDescription : Option String := none
  shortDescription : Option String := none
  coverImage : Option String := none
  parentCategoryIds : Option (List JsId) := none
  createdAt : Option String := none
  updatedAt : Option String := none
deriving DecidableEq, Repr

/-- Boolean test that the first list is a leading segment of the second. -/
def listStartsWith : List Char → List Char → Bool
  | [], _ => true
  | _ :: _, [] => false
  | a :: as, b :: bs => a == b && listStartsWith as bs

/-- Boolean test that the first list occurs contiguously inside the second. -/
def listContainsSeq (needle : List Char) : List Char → Bool
  | [] => needle.isEmpty
  | b :: bs => listStartsWith needle (b :: bs) || listContainsSeq needle bs

/-- Model of JavaScript String.prototype.includes: the second string occurs
as a contiguous substring of the first. -/
def strIncludes (s sub : String) : Bool := listContainsSeq sub.toList s.toList

/-- Model of JavaScript String.prototype.toLowerCase: lower each character.
(String.toLower of the library is defined through well-founded recursion and
does not reduce in the kernel, so the lowering is written as a map over the
character list.) -/
def strToLower (s : String) : String := String.mk (s.toList.map Char.toLower)

/-- Model of Array.prototype.includes on a list of identifiers (membership
under strict equality, as in cat.parentCategoryIds?.includes(parentId)). -/
def jsIncludes (ids : List JsId) (x : JsId) : Bool := ids.any fun p => jsEq p x

/-- Filter dropdown value in CategoriesPage.tsx: "all" | "parent" | "sub". -/
inductive FilterType where
  | all
  | parent
  | sub
deriving DecidableEq, Repr

/-- Search predicate of filteredCategories in CategoriesPage.tsx lines 68-71:
categoryName, shortDescription or longDescription contains the search term,
all lowered first. -/
def matchesSearch (category : Category) (searchTerm : String) : Bool :=
  strIncludes (strToLower category.categoryName) (strToLower searchTerm) ||
  (Option.any (fun d => strIncludes (strToLower d) (strToLower searchTerm))
    category.shortDescription) ||
  (Option.any (fun d => strIncludes (strToLower d) (strToLower searchTerm))
    category.longDescription)

/-- Type-filter predicate of filteredCategories in CategoriesPage.tsx
lines 73-76. -/
def matchesFilter (category : Category) (filterType : FilterType) : Bool :=
  filterType == FilterType.all ||
  (filterType == FilterType.parent && !category.isSubCategory) ||
  (filterType == FilterType.sub && category.isSubCategory)

/-- filteredCategories of CategoriesPage.tsx lines 67-79, as a function of the
categories state, the search term and the filter type. -/
def filteredCategories (categories : List Category) (searchTerm : String)
    (filterType : FilterType) : List Category :=
  categories.filter fun category =>
    matchesSearch category searchTerm && matchesFilter category filterType

/-- filteredCategories of the unnamed duplicate categories page (lines 59-63):
only categoryName and shortDescription are searched, no type filter. -/
def filteredCategoriesBasic (categories : List Category)
    (searchTerm : String) : List Category :=
  categories.filter fun category =>
    strIncludes (strToLower category.categoryName) (strToLower searchTerm) ||
    (Option.any (fun d => strIncludes (strToLower d) (strToLower searchTerm))
      category.shortDescription)

/-- getSubCategories of CategoriesPage.tsx lines 86-90, as a function of the
list it filters (filteredCategories in the component scope):
cats.filter(cat => cat.isSubCategory && cat.parentCategoryIds?.includes(parentId)).
Membership uses Array.prototype.includes, i.e. strict equality. -/
def getSubCategories (cats : List Category) (parentId : JsId) : List Category :=
  cats.filter fun cat =>
    cat.isSubCategory &&
      (match cat.parentCategoryIds with
       | some ids => jsIncludes ids parentId
       | none => false)

/-- Sub-category lookup of fetchCategoryDetails in CategoryDetailPage.tsx
lines 99-106, as a function of the category list and the id of the found
parent category: keeps sub-categories one of whose parentCategoryIds either
strictly equals the parent id or has the same toString rendering. -/
def detailSubCategories (cats : List Category) (foundCategoryId : JsId) :
    List Category :=
  cats.filter fun cat =>
    if !cat.isSubCategory || cat.parentCategoryIds.isNone then false
    else
      (cat.parentCategoryIds.getD []).any fun parentId =>
        jsEq parentId foundCategoryId ||
          parentId.render == foundCategoryId.render

/-- Form state of CategoriesPage.tsx (useState initial value at lines 33-40). -/
structure FormDataState where
  categoryName : String := ""
  shortDescription : String := ""
  longDescription : String := ""
  parentCategoryIds : List Nat := []
  isSubCategory : Bool := false
  coverImage : String := ""
deriving DecidableEq, Repr

/-- Default cover image URL substituted by handleSubmit when the form field is
empty (CategoriesPage.tsx line 134). -/
def defaultCoverImage : String :=
  "https://images.pexels.com/photos/315755/pexels-photo-315755.jpeg?auto=compress&cs=tinysrgb&w=300"

/-- Payload shape of interface CreateUpdateCategoryRequest in
src/services/api.ts. -/
structure CreateUpdateCategoryRequest where
  id : Option JsId := none
  categoryName : String
  isSubCategory : Bool
  longDescription : String
  shortDescription : String
  coverImage : String
  parentCategoryIds : List Nat
deriving DecidableEq, Repr

/-- Payload construction of handleSubmit in CategoriesPage.tsx lines 128-136:
text fields are trimmed, an empty cover image falls back to the default URL,
and parentCategoryIds is forced to the empty list unless isSubCategory. -/
def categoryData (editingCategory : Option Category)
    (formData : FormDataState) : CreateUpdateCategoryRequest :=
  { id := editingCategory.map Category.id
    categoryName := formData.categoryName.trim
    shortDescription := formData.shortDescription.trim
    longDescription := formData.longDescription.trim
    isSubCategory := formData.isSubCategory
    coverImage :=
      if formData.coverImage.trim == "" then defaultCoverImage
      else formData.coverImage.trim
    parentCategoryIds :=
      if formData.isSubCategory then formData.parentCategoryIds else [] }

/-- HTML constraint validation of the category form in CategoriesPage.tsx:
the name input (line 258) and short description input (line 276) carry
required, and the parent-categories multi select (line 330) carries
required exactly when isSubCategory, so the browser blocks submission while
the name or short description is empty, or while isSubCategory is set and no
parent option is selected. -/
def formValid (formData : FormDataState) : Bool :=
  formData.categoryName != "" && formData.shortDescription != "" &&
  (!formData.isSubCategory || formData.parentCategoryIds != [])

/-- Submission path of the category form: the browser constraint validation
gates handleSubmit, so a createUpdateCategory payload is produced only when
the form is valid. -/
def submitForm (editingCategory : Option Category)
    (formData : FormDataState) : Option CreateUpdateCategoryRequest :=
  if formValid formData then some (categoryData editingCategory formData)
  else none

/-- Thrown JavaScript error value as observed by the catch blocks:
whether it is a TypeError, plus its message. -/
structure JsError where
  isTypeError : Bool
  message : String
deriving DecidableEq, Repr

/-- Parsed response body as consumed by makeRequest: the two message fields it
reads (responseData.errorMessage, responseData.message). -/
structure RespBody where
  errorMessage : Option String := none
  message : Option String := none
deriving DecidableEq, Repr

/-- Outcome of the fetch call inside makeRequest: either fetch threw, or a
response arrived with an ok flag (status 2xx), a content type that is or is
not application/json, the result of response.json() when attempted (an
Except, error meaning the body was not parseable JSON), and the raw body
text used by response.text(). -/
inductive FetchResult where
  | thrown (isTypeError : Bool) (msg : String)
  | resp (ok : Bool) (contentTypeJson : Bool)
      (jsonBody : Except String RespBody) (text : String)

/-- JavaScript truthiness fallback for the chain
a || b on string-valued fields: null, undefined and the empty string fall
through to the alternative. -/
def jsOrString (a : Option String) (b : String) : String :=
  match a with
  | some s => if s == "" then b else s
  | none => b

/-- Distinguished connectivity message thrown by makeRequest
(src/services/api.ts lines 152-154). -/
def networkErrorMessage : String :=
  "Network error: Unable to connect to server. Please check your internet connection."

/-- Body of the try block of ApiService.makeRequest (src/services/api.ts
lines 118-145): a thrown fetch error propagates; otherwise the body is parsed
as JSON when the content type says so (a parse failure propagating as the
thrown SyntaxError message) or wrapped as a message-only payload otherwise;
an ok response returns the payload, a non-2xx response throws an Error whose
message is errorMessage, else message, else the generic fallback. -/
def makeRequestTry : FetchResult → Except JsError RespBody
  | .thrown isTypeError msg => .error { isTypeError := isTypeError, message := msg }
  | .resp ok contentTypeJson jsonBody text =>
    match
      (if contentTypeJson then
        jsonBody.mapError fun m => { isTypeError := false, message := m }
      else .ok { errorMessage := none, message := some text }) with
    | .error e => .error e
    | .ok responseData =>
      if ok then .ok responseData
      else
        .error { isTypeError := false
                 message := jsOrString responseData.errorMessage
                   (jsOrString responseData.message "Request failed") }

/-- ApiService.makeRequest (src/services/api.ts lines 102-159): the try body
wrapped in the catch block of lines 146-158, which replaces a TypeError whose
message contains the fetch failure marker with the distinguished network
error and rethrows everything else unchanged. -/
def makeRequest (r : FetchResult) : Except JsError RespBody :=
  match makeRequestTry r with
  | .ok d => .ok d
  | .error e =>
    if e.isTypeError && strIncludes e.message "Failed to fetch" then
      .error { isTypeError := false, message := networkErrorMessage }
    else .error e

/-- Envelope of GET /category/getAll as read by loadCategories
(interface CategoriesResponse in src/services/api.ts). -/
structure CategoriesResponse where
  errorCode : Int
  errorMessage : Option String := none
  data : Option (List Category) := none

/-- Local state of CategoriesPage that the claims concern: the categories
list, the expanded-node set and the inline error message. -/
structure PageState where
  categories : List Category
  expandedCategories : Finset JsId
  error : String

/-- loadCategories of CategoriesPage.tsx lines 47-64, as a state transformer
parameterized by the outcome of apiService.getAllCategories(): on an envelope
with errorCode 0 and present data the categories state is replaced wholesale
and the error cleared; otherwise the error message is surfaced and the
categories state is left as it was. No other state field is touched. -/
def loadCategories (st : PageState)
    (result : Except JsError CategoriesResponse) : PageState :=
  match result with
  | .ok response =>
    if response.errorCode == 0 && response.data.isSome then
      { st with categories := response.data.getD [], error := "" }
    else
      { st with error := jsOrString response.errorMessage "Failed to load categories" }
  | .error e => { st with error := e.message }

/-- handleDeleteCategory of CategoriesPage.tsx lines 173-187, parameterized by
the confirm dialog answer, the outcome of apiService.deleteCategory and the
outcome of the subsequent reload: without confirmation nothing happens; a
rejected delete is caught, its message surfaced, and the reload is never
reached; a resolved delete clears the error and reloads. -/
def handleDeleteCategory (st : PageState) (confirmed : Bool)
    (deleteResult : Except JsError RespBody)
    (reloadResult : Except JsError CategoriesResponse) : PageState :=
  if !confirmed then st
  else
    match deleteResult with
    | .error e => { st with error := e.message }
    | .ok _ => loadCategories { st with error := "" } reloadResult

/-- toggleCategoryExpansion of CategoriesPage.tsx lines 189-197: copy the
expanded set, remove the id when present, add it otherwise. -/
def toggleCategoryExpansion (expandedCategories : Finset JsId)
    (categoryId : JsId) : Finset JsId :=
  if categoryId ∈ expandedCategories then expandedCategories.erase categoryId
  else insert categoryId expandedCategories

/-- Parent category of the worked example in the spec (id 1, not a
sub-category). -/
def exParent : Category :=
  { id := JsId.num 1, categoryName := "Fruits", isSubCategory := false
    shortDescription := some "Fresh fruits", parentCategoryIds := some [] }

/-- Sub-category of the worked example in the spec (id 2, parent ids [1]). -/
def exSub : Category :=
  { id := JsId.num 2, categoryName := "Apples", isSubCategory := true
    shortDescription := some "Crisp apples"
    parentCategoryIds := some [JsId.num 1] }

/-- Flat input of the worked example in the spec. -/
def exFlat : List Category := [exParent, exSub]

/-- Parent whose id arrives as the string representation. -/
def mixedParent : Category :=
  { id := JsId.str "1", categoryName := "Fruits", isSubCategory := false
    shortDescription := some "Fresh fruits", parentCategoryIds := some [] }

/-- Sub-category referencing the parent through the numeric representation of
the same identifier. -/
def mixedSub : Category :=
  { id := JsId.num 2, categoryName := "Apples", isSubCategory := true
    shortDescription := some "Crisp apples"
    parentCategoryIds := some [JsId.num 1] }

/-- Flat list mixing numeric and string identifier representations. -/
def mixedFlat : List Category := [mixedParent, mixedSub]

/-- Strict equality implies equal renderings, so the disjunction tested by the
detail page collapses to tolerant equality. -/
theorem jsEq_or_render (p f : JsId) :
    (jsEq p f || p.render == f.render) = tolerantEq p f := by
  cases p with
  | num a =>
    cases f with
    | num b =>
      by_cases h : a = b
      · subst h; simp [jsEq, tolerantEq, JsId.render]
      · simp [jsEq, tolerantEq, JsId.render, h]
    | str s => simp [jsEq, tolerantEq, JsId.render]
  | str a =>
    cases f with
    | num b => simp [jsEq, tolerantEq, JsId.render]
    | str b =>
      by_cases h : a = b
      · subst h; simp [jsEq, tolerantEq, JsId.render]
      · simp [jsEq, tolerantEq, JsId.render, h]

/-- C1 counterexample: on a flat list whose parent id arrives as the string
"1" while the sub-category references the numeric 1, the two ids are equal
under tolerant numeric/string comparison, yet getSubCategories (which uses
strict Array.includes membership) returns no children for that parent, so the
reconstruction does not match the tolerant-equality description. -/
theorem c1_counterexample :
    mixedParent ∈ mixedFlat ∧ mixedParent.isSubCategory = false ∧
    mixedSub ∈ mixedFlat ∧ mixedSub.isSubCategory = true ∧
    (mixedSub.parentCategoryIds.getD []).any
      (fun p => tolerantEq p mixedParent.id) = true ∧
    getSubCategories mixedFlat mixedParent.id = [] := by decide

/-- C1 (amended): getSubCategories of CategoriesPage returns exactly the input
categories with isSubCategory set whose parentCategoryIds contains an id
STRICTLY equal (JavaScript triple equals) to the queried parent id, so a
sub-category whose parentCategoryIds strictly matches no existing parent id
appears in no children list; the tolerant numeric/string comparison is applied
only by the sub-category lookup of CategoryDetailPage, which returns exactly
the sub-categories with a tolerantly matching parent id. -/
theorem c1_strict_vs_tolerant (cats : List Category) (parentId : JsId)
    (s : Category) :
    (s ∈ getSubCategories cats parentId ↔
      s ∈ cats ∧ s.isSubCategory = true ∧
        (s.parentCategoryIds.getD []).any (fun p => jsEq p parentId) = true) ∧
    (s ∈ detailSubCategories cats parentId ↔
      s ∈ cats ∧ s.isSubCategory = true ∧
        (s.parentCategoryIds.getD []).any (fun p => tolerantEq p parentId) = true) := by
  constructor
  · rw [getSubCategories, List.mem_filter, and_congr_right_iff]
    intro _
    cases h : s.parentCategoryIds <;>
      simp [h, jsIncludes, Bool.and_eq_true]
  · rw [detailSubCategories, List.mem_filter, and_congr_right_iff]
    intro _
    cases h : s.parentCategoryIds <;>
      cases hs : s.isSubCategory <;>
        simp [h, hs, jsEq_or_render]

/-- C2: a sub-category occurring once in the flat list and referencing an
existing parent id appears exactly once in the computed children list of
that parent, and in the children list computed from any permutation of the input;
moreover on the spec example, parent 1 gets exactly the child 2. -/
theorem c2_child_exactly_once :
    (∀ (l l2 : List Category) (P S : Category), l.Perm l2 → P ∈ l →
        P.isSubCategory = false → S.isSubCategory = true →
        (S.parentCategoryIds.getD []).any (fun p => jsEq p P.id) = true →
        List.count S l = 1 →
        List.count S (getSubCategories l P.id) = 1 ∧
          List.count S (getSubCategories l2 P.id) = 1) ∧
    getSubCategories exFlat (JsId.num 1) = [exSub] ∧
    exFlat.filter (fun c => !c.isSubCategory) = [exParent] := by
  refine ⟨?_, by decide, by decide⟩
  intro l l2 P S hperm hP hPpar hS href hcount
  have hpred : (S.isSubCategory &&
      (match S.parentCategoryIds with
       | some ids => jsIncludes ids P.id
       | none => false)) = true := by
    cases h : S.parentCategoryIds with
    | none => rw [h] at href; simp at href
    | some ids =>
      rw [h] at href
      simp only [Option.getD_some] at href
      simp [hS, jsIncludes, href]
  have hcf := fun m => @List.count_filter Category _ _
    (fun cat =>
      cat.isSubCategory &&
        (match cat.parentCategoryIds with
         | some ids => jsIncludes ids P.id
         | none => false)) S m hpred
  constructor
  · rw [getSubCategories, hcf l]
    exact hcount
  · rw [getSubCategories, hcf l2, ← hperm.count_eq]
    exact hcount

/-- C2 witness: the general part instantiated on the spec example and the
swapped permutation of its two records. -/
theorem c2_witness :
    List.count exSub (getSubCategories exFlat (JsId.num 1)) = 1 ∧
    List.count exSub (getSubCategories [exSub, exParent] (JsId.num 1)) = 1 :=
  c2_child_exactly_once.1 exFlat [exSub, exParent] exParent exSub
    (by decide) (by decide) (by decide) (by decide) (by decide) (by decide)

/-- C3: the hierarchy reconstruction is pure and idempotent: filtering the
computed children list again with the same parent id returns it unchanged,
and equal input lists give equal children lists (the embedding is a pure
function of its input; the source filter allocates a fresh array and never
mutates the input). -/
theorem c3_reconstruction_pure :
    (∀ (cats : List Category) (parentId : JsId),
        getSubCategories (getSubCategories cats parentId) parentId =
          getSubCategories cats parentId) ∧
    (∀ (cats cats2 : List Category) (parentId : JsId), cats = cats2 →
        getSubCategories cats parentId = getSubCategories cats2 parentId) := by
  constructor
  · intro cats parentId
    simp [getSubCategories, List.filter_filter]
  · intro cats cats2 parentId h
    rw [h]

/-- C3 witness: idempotence and determinism instantiated on the spec
example. -/
theorem c3_witness :
    getSubCategories (getSubCategories exFlat (JsId.num 1)) (JsId.num 1) =
      getSubCategories exFlat (JsId.num 1) ∧
    getSubCategories exFlat (JsId.num 1) = getSubCategories exFlat (JsId.num 1) :=
  ⟨c3_reconstruction_pure.1 exFlat (JsId.num 1),
   c3_reconstruction_pure.2 exFlat exFlat (JsId.num 1) rfl⟩

/-- C4: a category kept by the search filter (either page variant) came from
the input list and has a name, short description or long description that
contains the search term case-insensitively. -/
theorem c4_search_subset (cats : List Category) (searchTerm : String)
    (filterType : FilterType) (c : Category)
    (h : c ∈ filteredCategories cats searchTerm filterType ∨
         c ∈ filteredCategoriesBasic cats searchTerm) :
    c ∈ cats ∧
      (strIncludes (strToLower c.categoryName) (strToLower searchTerm) = true ∨
       (∃ d, c.shortDescription = some d ∧
          strIncludes (strToLower d) (strToLower searchTerm) = true) ∨
       (∃ d, c.longDescription = some d ∧
          strIncludes (strToLower d) (strToLower searchTerm) = true)) := by
  rcases h with h | h
  · rw [filteredCategories, List.mem_filter] at h
    obtain ⟨hmem, hpred⟩ := h
    refine ⟨hmem, ?_⟩
    have hsearch : matchesSearch c searchTerm = true :=
      ((Bool.and_eq_true _ _).mp hpred).1
    cases hsd : c.shortDescription <;> cases hld : c.longDescription <;>
      · rw [matchesSearch, hsd, hld] at hsearch
        simp [Option.any] at hsearch
        simp [hsd, hld]
        tauto
  · rw [filteredCategoriesBasic, List.mem_filter] at h
    obtain ⟨hmem, hpred⟩ := h
    refine ⟨hmem, ?_⟩
    cases hsd : c.shortDescription <;>
      · rw [hsd] at hpred
        simp [Option.any] at hpred
        simp [hsd]
        tauto

/-- C4 witness: the example sub-category survives the search for a fragment of
its name, and the conclusion evaluates on it. -/
theorem c4_witness :
    exSub ∈ exFlat ∧
      (strIncludes (strToLower exSub.categoryName) (strToLower "app") = true ∨
       (∃ d, exSub.shortDescription = some d ∧
          strIncludes (strToLower d) (strToLower "app") = true) ∨
       (∃ d, exSub.longDescription = some d ∧
          strIncludes (strToLower d) (strToLower "app") = true)) :=
  c4_search_subset exFlat "app" FilterType.all exSub (Or.inl (by decide))

/-- C5: the submission path of the category form never issues a
createUpdateCategory request for a sub-category without parents: a form state
with isSubCategory set and no selected parent fails the required constraint of
the parent select, so no payload is produced; and every payload that is
produced with isSubCategory set carries a non-empty parentCategoryIds list. -/
theorem c5_sub_requires_parents :
    (∀ (editingCategory : Option Category) (formData : FormDataState),
        formData.isSubCategory = true → formData.parentCategoryIds = [] →
        submitForm editingCategory formData = none) ∧
    (∀ (editingCategory : Option Category) (formData : FormDataState)
        (payload : CreateUpdateCategoryRequest),
        submitForm editingCategory formData = some payload →
        payload.isSubCategory = true → payload.parentCategoryIds ≠ []) := by
  constructor
  · intro e f h1 h2
    simp [submitForm, formValid, h1, h2]
  · intro e f payload hsome hsub
    rw [submitForm] at hsome
    split at hsome
    · rename_i hv
      have hpay : payload = categoryData e f := (Option.some_inj.mp hsome).symm
      rw [formValid] at hv
      have hfsub : f.isSubCategory = true := by
        rw [hpay] at hsub
        simpa [categoryData] using hsub
      have hids : f.parentCategoryIds ≠ [] := by
        simp [hfsub, Bool.and_eq_true, bne_iff_ne] at hv
        exact hv.2
      rw [hpay]
      simpa [categoryData, hfsub] using hids
    · exact absurd hsome (by simp)

/-- C5 witness: a sub-category form with no parents produces no payload, and a
sub-category form with a parent produces a payload with a non-empty parent
list. -/
theorem c5_witness :
    submitForm none
      { categoryName := "Apples", shortDescription := "Crisp"
        isSubCategory := true, parentCategoryIds := [] } = none ∧
    (categoryData none
      { categoryName := "Apples", shortDescription := "Crisp"
        isSubCategory := true, parentCategoryIds := [1] }).parentCategoryIds ≠ [] := by
  refine ⟨c5_sub_requires_parents.1 none _ rfl rfl, ?_⟩
  refine c5_sub_requires_parents.2 none
    { categoryName := "Apples", shortDescription := "Crisp"
      isSubCategory := true, parentCategoryIds := [1] } _ ?_ rfl
  rw [submitForm]
  simp only [show formValid
    { categoryName := "Apples", shortDescription := "Crisp"
      isSubCategory := true, parentCategoryIds := [1] } = true from by decide]
  rfl

/-- C6: whenever isSubCategory is false in the form state, the payload built
by handleSubmit carries an empty parentCategoryIds list, whatever parent ids
the form state holds. -/
theorem c6_parent_payload_no_parents (editingCategory : Option Category)
    (formData : FormDataState) (h : formData.isSubCategory = false) :
    (categoryData editingCategory formData).parentCategoryIds = [] := by
  simp [categoryData, h]

/-- C6 witness: a parent-variant form state with leftover parent ids still
yields an empty parentCategoryIds in the payload. -/
theorem c6_witness :
    (categoryData none
      { categoryName := "Fruits", shortDescription := "Fresh"
        isSubCategory := false, parentCategoryIds := [3] }).parentCategoryIds = [] :=
  c6_parent_payload_no_parents none _ rfl

/-- C7: contract of ApiService.makeRequest. A fetch TypeError whose message
contains the fetch-failure marker becomes the distinguished network error; a
non-2xx JSON response throws the server errorMessage when non-empty, else the
message field when non-empty, else the generic fallback; a non-JSON body is
wrapped as a message-only payload (returned as such on 2xx); and a 2xx JSON
response returns the parsed body without raising. -/
theorem c7_makeRequest_contract :
    (∀ msg, strIncludes msg "Failed to fetch" = true →
        makeRequest (FetchResult.thrown true msg) =
          Except.error { isTypeError := false, message := networkErrorMessage }) ∧
    (∀ (d : RespBody) (text m : String), d.errorMessage = some m → m ≠ "" →
        makeRequest (FetchResult.resp false true (Except.ok d) text) =
          Except.error { isTypeError := false, message := m }) ∧
    (∀ (d : RespBody) (text m : String), d.errorMessage = none →
        d.message = some m → m ≠ "" →
        makeRequest (FetchResult.resp false true (Except.ok d) text) =
          Except.error { isTypeError := false, message := m }) ∧
    (∀ (text : String),
        makeRequest (FetchResult.resp false true
            (Except.ok { errorMessage := none, message := none }) text) =
          Except.error { isTypeError := false, message := "Request failed" }) ∧
    (∀ (jsonBody : Except String RespBody) (text : String),
        makeRequest (FetchResult.resp true false jsonBody text) =
          Except.ok { errorMessage := none, message := some text }) ∧
    (∀ (d : RespBody) (text : String),
        makeRequest (FetchResult.resp true true (Except.ok d) text) =
          Except.ok d) := by
  refine ⟨?_, ?_, ?_, ?_, ?_, ?_⟩
  · intro msg h
    simp [makeRequest, makeRequestTry, h]
  · intro d text m h1 h2
    simp [makeRequest, makeRequestTry, Except.mapError, jsOrString, h1, h2]
  · intro d text m h1 h2 h3
    simp [makeRequest, makeRequestTry, Except.mapError, jsOrString, h1, h2, h3]
  · intro text
    simp [makeRequest, makeRequestTry, Except.mapError, jsOrString]
  · intro jsonBody text
    simp [makeRequest, makeRequestTry, Except.mapError]
  · intro d text
    simp [makeRequest, makeRequestTry, Except.mapError]

/-- C7 witness: each clause of the makeRequest contract evaluated on a
concrete request outcome. -/
theorem c7_witness :
    makeRequest (FetchResult.thrown true "TypeError: Failed to fetch") =
      Except.error { isTypeError := false, message := networkErrorMessage } ∧
    makeRequest (FetchResult.resp false true
        (Except.ok { errorMessage := some "Category not found", message := none }) "") =
      Except.error { isTypeError := false, message := "Category not found" } ∧
    makeRequest (FetchResult.resp false true
        (Except.ok { errorMessage := none, message := some "missing" }) "") =
      Except.error { isTypeError := false, message := "missing" } ∧
    makeRequest (FetchResult.resp false true
        (Except.ok { errorMessage := none, message := none }) "") =
      Except.error { isTypeError := false, message := "Request failed" } ∧
    makeRequest (FetchResult.resp true false (Except.error "bad json") "plain body") =
      Except.ok { errorMessage := none, message := some "plain body" } ∧
    makeRequest (FetchResult.resp true true
        (Except.ok { errorMessage := none, message := none }) "") =
      Except.ok { errorMessage := none, message := none } :=
  ⟨c7_makeRequest_contract.1 _ (by decide),
   c7_makeRequest_contract.2.1 _ "" _ rfl (by decide),
   c7_makeRequest_contract.2.2.1 _ "" _ rfl rfl (by decide),
   c7_makeRequest_contract.2.2.2.1 "",
   c7_makeRequest_contract.2.2.2.2.1 _ _,
   c7_makeRequest_contract.2.2.2.2.2 _ ""⟩

/-- C8: when the delete request is answered with an error, handleDeleteCategory
surfaces the message and performs no reload: the categories state is unchanged
and the resulting state does not depend on what a reload would have returned. -/
theorem c8_failed_delete_leaves_list (st : PageState) (e : JsError)
    (r1 r2 : Except JsError CategoriesResponse) :
    (handleDeleteCategory st true (Except.error e) r1).categories =
      st.categories ∧
    (handleDeleteCategory st true (Except.error e) r1).error = e.message ∧
    handleDeleteCategory st true (Except.error e) r1 =
      handleDeleteCategory st true (Except.error e) r2 := by
  refine ⟨rfl, rfl, rfl⟩

/-- Category present before the reload and expanded. -/
def staleCategory : Category :=
  { id := JsId.num 5, categoryName := "Dairy", isSubCategory := false
    shortDescription := some "Milk and cheese", parentCategoryIds := some [] }

/-- Category returned by the reload, with a different id. -/
def freshCategory : Category :=
  { id := JsId.num 7, categoryName := "Bakery", isSubCategory := false
    shortDescription := some "Bread", parentCategoryIds := some [] }

/-- Page state in which the soon-to-disappear category id 5 is expanded. -/
def staleState : PageState :=
  { categories := [staleCategory], expandedCategories := {JsId.num 5}
    error := "" }

/-- Successful reload envelope no longer containing category id 5. -/
def freshResponse : CategoriesResponse :=
  { errorCode := 0, errorMessage := none, data := some [freshCategory] }

/-- C9 counterexample: after a successful reload that drops category id 5, the
id 5 is still a member of the expanded-node set even though no category in the
reloaded list carries it, so no implicit pruning takes place. -/
theorem c9_counterexample :
    JsId.num 5 ∈ (loadCategories staleState (Except.ok freshResponse)).expandedCategories ∧
    ∀ c ∈ (loadCategories staleState (Except.ok freshResponse)).categories,
      c.id ≠ JsId.num 5 := by
  constructor
  · show JsId.num 5 ∈ staleState.expandedCategories
    decide
  · intro c hc
    have : c = freshCategory := by
      simpa [loadCategories, freshResponse] using hc
    subst this
    decide

/-- C9 (amended): a reload leaves the expanded-node set entirely unchanged:
ids of removed categories are retained in the set (they are merely never
consulted, because rendering queries the set only for parents present in the
current list), and the expanded/collapsed status of the ids that remain
present is likewise unaffected. -/
theorem c9_reload_preserves_expanded (st : PageState)
    (result : Except JsError CategoriesResponse) :
    (loadCategories st result).expandedCategories = st.expandedCategories := by
  cases result with
  | ok r =>
    rw [loadCategories]
    split <;> rfl
  | error e => rfl

/-- C10: toggling a category id twice restores the expanded set, and a single
toggle leaves the membership of every other id unchanged. -/
theorem c10_toggle_involutive (expanded : Finset JsId) (c d : JsId)
    (hd : d ≠ c) :
    toggleCategoryExpansion (toggleCategoryExpansion expanded c) c = expanded ∧
    (d ∈ toggleCategoryExpansion expanded c ↔ d ∈ expanded) := by
  by_cases hc : c ∈ expanded
  · constructor
    · have h1 : toggleCategoryExpansion expanded c = expanded.erase c := by
        rw [toggleCategoryExpansion, if_pos hc]
      rw [h1, toggleCategoryExpansion,
        if_neg (Finset.not_mem_erase c expanded)]
      exact Finset.insert_erase hc
    · rw [toggleCategoryExpansion, if_pos hc, Finset.mem_erase]
      exact and_iff_right hd
  · constructor
    · have h1 : toggleCategoryExpansion expanded c = insert c expanded := by
        rw [toggleCategoryExpansion, if_neg hc]
      rw [h1, toggleCategoryExpansion,
        if_pos (Finset.mem_insert_self c expanded)]
      exact Finset.erase_insert hc
    · rw [toggleCategoryExpansion, if_neg hc, Finset.mem_insert]
      simp [hd]

/-- C10 witness: double toggle of id 2 on the set containing only id 1, and
preservation of the membership of id 1. -/
theorem c10_witness :
    toggleCategoryExpansion (toggleCategoryExpansion {JsId.num 1} (JsId.num 2))
      (JsId.num 2) = {JsId.num 1} ∧
    (JsId.num 1 ∈ toggleCategoryExpansion {JsId.num 1} (JsId.num 2) ↔
      JsId.num 1 ∈ ({JsId.num 1} : Finset JsId)) :=
  c10_toggle_involutive {JsId.num 1} (JsId.num 2) (JsId.num 1) (by decide)

end FoodApp
